import Mathlib

/-!
Verification of the AfriMail campaign delivery engine specification against a
shallow embedding of the repository's Python source
(backend/models/email_models.py, backend/services/email_service.py,
backend/services/campaign_service.py, backend/tasks.py).

Conventions of the embedding:
* Django model rows become Lean structures; UUID primary keys become `Nat`.
* Timestamps are `Nat` seconds; `timezone.timedelta(minutes=m)` is `60 * m`.
* Python strings are Lean `String`; byte strings are `List Nat` with each
  entry below 256.
* Database queries (`filter`, `exclude`, `order_by`, slicing) become `List`
  operations on the list of rows.
-/

namespace Afrimail

/-- Status values of `EmailQueue.STATUS_CHOICES` in email_models.py
    (PENDING, SENDING, SENT, FAILED, RETRYING), plus the CANCELLED string that
    `CampaignService.cancel_campaign` writes through a raw `update`. -/
inductive QStatus where
  | pending
  | sending
  | sent
  | failed
  | retrying
  | cancelled
deriving DecidableEq, Repr

/-- Status values of `EmailCampaign.STATUS_CHOICES` in email_models.py. -/
inductive CStatus where
  | draft
  | scheduled
  | sending
  | cSent
  | paused
  | cCancelled
  | cFailed
deriving DecidableEq, Repr

/-- The fields of `EmailDomainConfig` (email_models.py lines 12-144) consulted
    by the rate limiter: activity, verification, and usage counters/limits. -/
structure EmailDomainConfig where
  is_active : Bool
  domain_verified : Bool
  daily_send_limit : Nat
  monthly_send_limit : Nat
  emails_sent_today : Nat
  emails_sent_this_month : Nat
  last_used_at : Option Nat
deriving DecidableEq, Repr

/-- Model of `EmailDomainConfig.can_send_email` (email_models.py lines
    103-114): false when inactive or unverified, or when the daily or monthly
    counter has reached its limit. -/
def can_send_email (cfg : EmailDomainConfig) : Bool :=
  if !cfg.is_active || !cfg.domain_verified then false
  else if cfg.daily_send_limit ≤ cfg.emails_sent_today then false
  else if cfg.monthly_send_limit ≤ cfg.emails_sent_this_month then false
  else true

/-- Model of `EmailDomainConfig.increment_usage` (email_models.py lines
    116-121): adds one to both usage counters and stamps `last_used_at`. -/
def increment_usage (cfg : EmailDomainConfig) (now : Nat) : EmailDomainConfig :=
  { cfg with
    emails_sent_today := cfg.emails_sent_today + 1
    emails_sent_this_month := cfg.emails_sent_this_month + 1
    last_used_at := some now }

/-- Alphabet of standard base64 as used by Python `base64.b64encode`. -/
def b64chars : List Char :=
  "ABCDEFGHIJKLMNOPQRSTUVWXYZabcdefghijklmnopqrstuvwxyz0123456789+/".data

/-- Alphabet of `base64.urlsafe_b64encode` (tracking tokens). -/
def urlsafeChars : List Char :=
  "ABCDEFGHIJKLMNOPQRSTUVWXYZabcdefghijklmnopqrstuvwxyz0123456789-_".data

/-- Sextet-to-character table lookup of a base64 alphabet. -/
def encChar (alpha : List Char) (n : Nat) : Char := alpha.getD n 'A'

/-- Character-to-sextet lookup of a base64 alphabet; `none` for characters
    outside the alphabet (such as the `=` pad). -/
def decVal (alpha : List Char) (c : Char) : Option Nat := List.indexOf? c alpha

/-- Model of Python `base64.b64encode` on a byte list: 3 bytes become 4
    sextet characters; a 1- or 2-byte tail is padded with `=`. -/
def b64encodeWith (alpha : List Char) : List Nat → List Char
  | [] => []
  | [b0] =>
    [encChar alpha (b0 / 4), encChar alpha (b0 % 4 * 16), '=', '=']
  | [b0, b1] =>
    [encChar alpha (b0 / 4), encChar alpha (b0 % 4 * 16 + b1 / 16),
     encChar alpha (b1 % 16 * 4), '=']
  | b0 :: b1 :: b2 :: rest =>
    encChar alpha (b0 / 4) :: encChar alpha (b0 % 4 * 16 + b1 / 16) ::
    encChar alpha (b1 % 16 * 4 + b2 / 64) :: encChar alpha (b2 % 64) ::
    b64encodeWith alpha rest

/-- Model of Python `base64.b64decode` on correctly padded input: each group
    of 4 characters is decoded to 3 bytes, or to 1 or 2 bytes when it carries
    `=` padding; invalid characters yield `none`. -/
def b64decodeWith (alpha : List Char) : List Char → Option (List Nat)
  | a :: b :: c :: d :: rest =>
    match decVal alpha a, decVal alpha b with
    | some x, some y =>
      if c = '=' then
        if d = '=' ∧ rest = [] then some [x * 4 + y / 16] else none
      else
        match decVal alpha c with
        | some z =>
          if d = '=' then
            if rest = [] then some [x * 4 + y / 16, y % 16 * 16 + z / 4] else none
          else
            match decVal alpha d with
            | some w =>
              (b64decodeWith alpha rest).map
                (fun t => (x * 4 + y / 16) :: (y % 16 * 16 + z / 4) :: (z % 4 * 64 + w) :: t)
            | none => none
        | none => none
    | _, _ => none
  | [] => some []
  | _ => none

/-- Model of `EmailService._encrypt_password` (email_service.py lines
    506-512): base64-encode the UTF-8 bytes of the password.  The password is
    represented by its UTF-8 byte sequence. -/
def encrypt_password (pw : List Nat) : String :=
  ⟨b64encodeWith b64chars pw⟩

/-- Model of `EmailService._decrypt_password` (email_service.py lines
    514-520): base64-decode back to the stored byte sequence (`none` models
    the `except` fallback path for undecodable input). -/
def decrypt_password (s : String) : Option (List Nat) :=
  b64decodeWith b64chars s.data

/-- Model of Python `str.replace` on character lists: replace every
    non-overlapping occurrence of `pat` (scanning left to right) by `rep`;
    an empty pattern leaves the string unchanged (no pattern used by the
    service is empty).  Fuel-indexed: a nonempty pattern consumes at least
    one character per step, so fuel equal to the string length is exact. -/
def replaceAllFuel (pat rep : List Char) : Nat → List Char → List Char
  | 0, s => s
  | _ + 1, [] => []
  | fuel + 1, c :: rest =>
    if pat ≠ [] ∧ List.isPrefixOf pat (c :: rest) then
      rep ++ replaceAllFuel pat rep fuel ((c :: rest).drop pat.length)
    else
      c :: replaceAllFuel pat rep fuel rest

/-- String wrapper of `replaceAllFuel`. -/
def replaceAll (s pat rep : String) : String :=
  ⟨replaceAllFuel pat.data rep.data s.data.length s.data⟩

/-- Model of the Python `in` substring test on character lists. -/
def containsSub (s pat : List Char) : Bool :=
  match s with
  | [] => decide (pat = [])
  | _ :: rest => List.isPrefixOf pat s || containsSub rest pat

/-- String wrapper of `containsSub`. -/
def containsSubstr (s pat : String) : Bool := containsSub s.data pat.data

/-- Model of Python `str.title` (used by `Contact.get_short_name` and
    `Contact.get_full_name` on the local part of the email): the first letter
    of every alphabetic run is uppercased, the rest lowercased. -/
def pyTitleAux : Bool → List Char → List Char
  | _, [] => []
  | prevAlpha, ch :: rest =>
    (if ch.isAlpha then (if prevAlpha then ch.toLower else ch.toUpper) else ch) ::
      pyTitleAux ch.isAlpha rest

/-- String wrapper of `pyTitleAux`. -/
def pyTitle (s : String) : String := ⟨pyTitleAux false s.data⟩

/-- The local part of an email address: `email.split('@')[0]`. -/
def emailLocalPart (email : String) : String :=
  ⟨email.data.takeWhile (· ≠ '@')⟩

/-- The fields of `Contact` (contact_models.py lines 96-205) read by the
    delivery engine.  Blank Django ``CharField``s are the empty string (Python
    falsy); `custom_fields` is the JSON map as an insertion-ordered
    association list. -/
structure Contact where
  id : Nat
  email : String
  first_name : String
  last_name : String
  company : String
  city : String
  country : String
  custom_fields : List (String × String)
  is_active : Bool
  status : String
deriving DecidableEq, Repr

/-- Model of `Contact.get_full_name` (contact_models.py lines 194-201). -/
def get_full_name (c : Contact) : String :=
  if c.first_name ≠ "" ∧ c.last_name ≠ "" then c.first_name ++ " " ++ c.last_name
  else if c.first_name ≠ "" then c.first_name
  else if c.last_name ≠ "" then c.last_name
  else pyTitle (emailLocalPart c.email)

/-- Model of `Contact.get_short_name` (contact_models.py lines 203-204). -/
def get_short_name (c : Contact) : String :=
  if c.first_name ≠ "" then c.first_name else pyTitle (emailLocalPart c.email)

/-- Insertion into a Python dict modelled as an association list: an existing
    key keeps its position and takes the new value, a new key is appended. -/
def dictInsert (l : List (String × String)) (k v : String) : List (String × String) :=
  if l.any (fun p => p.1 = k) then
    l.map (fun p => if p.1 = k then (k, v) else p)
  else
    l ++ [(k, v)]

/-- The `personalizations` dict built by `EmailService._personalize_content`
    (email_service.py lines 405-418): the seven basic placeholders followed by
    one placeholder per custom field. -/
def personalizations (c : Contact) : List (String × String) :=
  let base : List (String × String) :=
    [("\x7b\x7bfirst_name\x7d\x7d",
        if c.first_name ≠ "" then c.first_name else get_short_name c),
     ("\x7b\x7blast_name\x7d\x7d", c.last_name),
     ("\x7b\x7bfull_name\x7d\x7d", get_full_name c),
     ("\x7b\x7bemail\x7d\x7d", c.email),
     ("\x7b\x7bcompany\x7d\x7d", c.company),
     ("\x7b\x7bcity\x7d\x7d", c.city),
     ("\x7b\x7bcountry\x7d\x7d", c.country)]
  c.custom_fields.foldl
    (fun acc kv => dictInsert acc ("\x7b\x7b" ++ kv.1 ++ "\x7d\x7d") kv.2) base

/-- Model of `EmailService._personalize_content` (email_service.py lines
    402-428): apply `str.replace` for each placeholder of the dict in
    insertion order. -/
def personalize_content (content : String) (c : Contact) : String :=
  (personalizations c).foldl (fun acc kv => replaceAll acc kv.1 kv.2) content

/-- The urlsafe-base64 token of an ASCII tracking-data string; Python encodes
    `data.encode()` whose bytes are the character codes for ASCII data. -/
def urlsafeToken (data : String) : String :=
  ⟨b64encodeWith urlsafeChars (data.data.map Char.toNat)⟩

/-- The tracking-pixel image tag built by `EmailService._add_tracking_pixel`
    (email_service.py lines 433-438): its token encodes campaign id, contact
    id and the generation instant `nowTs`
    (`timezone.now().timestamp()`). -/
def tracking_pixel (campaignId contactId : Nat) (nowTs : String) : String :=
  "<img src=\"http://localhost:8000/track/open/" ++
    urlsafeToken (toString campaignId ++ ":" ++ toString contactId ++ ":" ++ nowTs) ++
    "/\" width=\"1\" height=\"1\" style=\"display:none;\" />"

/-- Model of `EmailService._add_tracking_pixel` (email_service.py lines
    430-450): insert the pixel before the closing body tag when one exists,
    otherwise append it. -/
def add_tracking_pixel (html : String) (campaignId contactId : Nat) (nowTs : String) : String :=
  if containsSubstr html "</body>" then
    replaceAll html "</body>" (tracking_pixel campaignId contactId nowTs ++ "</body>")
  else
    html ++ tracking_pixel campaignId contactId nowTs

/-- Lowercasing of a character list, modelling `str.lower` and the
    IGNORECASE flag of the link regex. -/
def strLower (s : List Char) : List Char := s.map Char.toLower

/-- Case-insensitive prefix test (IGNORECASE literal matching). -/
def ciPrefix (pat s : List Char) : Bool :=
  List.isPrefixOf (strLower pat) (strLower s)

/-- Splits a string at the first case-insensitive occurrence of `pat`,
    returning the part before and the part after the occurrence; models the
    lazy group `(.*?)` followed by a literal, under DOTALL. -/
def splitAtFirstCI (pat : List Char) : List Char → Option (List Char × List Char)
  | [] => if pat = [] then some ([], []) else none
  | c :: rest =>
    if ciPrefix pat (c :: rest) then some ([], (c :: rest).drop pat.length)
    else (splitAtFirstCI pat rest).map (fun p => (c :: p.1, p.2))

/-- Result of matching the link pattern of `EmailService._add_click_tracking`
    at the start of a string: the matched text, the three capture groups, and
    the remainder after the match. -/
structure AnchorMatch where
  matched : List Char
  url : List Char
  attrs : List Char
  text : List Char
  rest : List Char
deriving Repr

/-- Matches the regex of `EmailService._add_click_tracking` (email_service.py
    line 456) at the start of `s` under IGNORECASE and DOTALL:
    an `<a` tag, whitespace, `href="`, a nonempty quote-free URL, a closing
    quote, attribute characters up to `>`, and lazy body text up to the first
    closing tag. -/
def matchAnchor (s : List Char) : Option AnchorMatch :=
  if ciPrefix ("<a".data) s then
    let s1 := s.drop 2
    let ws := s1.takeWhile Char.isWhitespace
    if ws.isEmpty then none else
    let s2 := s1.drop ws.length
    if ciPrefix ("href=\"".data) s2 then
      let s3 := s2.drop 6
      let url := s3.takeWhile (· ≠ '"')
      if url.isEmpty then none else
      match s3.drop url.length with
      | '"' :: s5 =>
        let attrs := s5.takeWhile (· ≠ '>')
        match s5.drop attrs.length with
        | '>' :: s6 =>
          match splitAtFirstCI ("</a>".data) s6 with
          | some (text, rest) =>
            some ⟨s.take (s.length - rest.length), url, attrs, text, rest⟩
          | none => none
        | _ => none
      | _ => none
    else none
  else none

/-- The replacement anchor built by `replace_link` (email_service.py lines
    458-472) for a tracked link. -/
def rewriteAnchor (campaignId contactId : Nat) (url attrs text : List Char) : List Char :=
  let tracking_data :=
    toString campaignId ++ ":" ++ toString contactId ++ ":" ++ (⟨url⟩ : String)
  let tracking_url :=
    "http://localhost:8000/track/click/" ++ urlsafeToken tracking_data ++ "/"
  ("<a href=\"" ++ tracking_url ++ "\"").data ++ attrs ++ [ '>' ] ++ text ++ "</a>".data

/-- Left-to-right non-overlapping substitution driver of `re.sub` for the
    link pattern; fuel-indexed (every match consumes at least one character,
    so fuel equal to the string length is exact). -/
def clickSubAux (campaignId contactId : Nat) : Nat → List Char → List Char
  | 0, s => s
  | _ + 1, [] => []
  | fuel + 1, c :: rest =>
    match matchAnchor (c :: rest) with
    | some m =>
      (if containsSub (strLower m.url) ("unsubscribe".data) ||
          containsSub m.url ("track/".data) then
        m.matched
      else
        rewriteAnchor campaignId contactId m.url m.attrs m.text) ++
        clickSubAux campaignId contactId fuel m.rest
    | none => c :: clickSubAux campaignId contactId fuel rest

/-- Model of `EmailService._add_click_tracking` (email_service.py lines
    452-478): rewrite every matched link whose URL is neither an unsubscribe
    nor a tracking link. -/
def add_click_tracking (html : String) (campaignId contactId : Nat) : String :=
  ⟨clickSubAux campaignId contactId html.data.length html.data⟩

/-- The fields of `EmailCampaign` (email_models.py lines 207-447) used by the
    delivery engine: content templates, tracking flags, status and counters. -/
structure EmailCampaign where
  id : Nat
  subject : String
  html_content : String
  text_content : Option String
  track_opens : Bool
  track_clicks : Bool
  status : CStatus
  recipient_count : Nat
  emails_sent : Nat
  emails_delivered : Nat
  emails_failed : Nat
  started_at : Option Nat
  completed_at : Option Nat
deriving DecidableEq, Repr

/-- Model of `EmailCampaign.start_sending` (email_models.py lines 353-357). -/
def start_sending (camp : EmailCampaign) (now : Nat) : EmailCampaign :=
  { camp with status := .sending, started_at := some now }

/-- Model of `EmailCampaign.complete_sending` (email_models.py lines
    359-363): the completed status is the code's SENT campaign status. -/
def complete_sending (camp : EmailCampaign) (now : Nat) : EmailCampaign :=
  { camp with status := .cSent, completed_at := some now }

/-- Model of `EmailCampaign.increment_sent` (email_models.py lines 375-378). -/
def increment_sent (camp : EmailCampaign) : EmailCampaign :=
  { camp with emails_sent := camp.emails_sent + 1 }

/-- Model of `EmailCampaign.increment_failed` (email_models.py lines
    390-393). -/
def increment_failed (camp : EmailCampaign) : EmailCampaign :=
  { camp with emails_failed := camp.emails_failed + 1 }

/-- A row of `EmailQueue` (email_models.py lines 450-516): one queued send
    for one (campaign, contact) pair, with retry state and the personalized
    content stored at queueing time. -/
structure EmailQueueJob where
  campaign_id : Nat
  contact_id : Nat
  status : QStatus
  priority : Int
  personalized_subject : String
  personalized_html_content : String
  personalized_text_content : Option String
  attempts : Nat
  max_attempts : Nat
  error_message : Option String
  scheduled_at : Nat
  sent_at : Option Nat
deriving DecidableEq, Repr

/-- Model of `EmailQueue.mark_sent` (email_models.py lines 498-502). -/
def mark_sent (j : EmailQueueJob) (now : Nat) : EmailQueueJob :=
  { j with status := .sent, sent_at := some now }

/-- Model of `EmailQueue.mark_failed` (email_models.py lines 504-516):
    increment the attempt counter, record the error, and either fail the job
    terminally (attempts at the maximum) or schedule a retry 5 minutes times
    the attempt count in the future. -/
def mark_failed (j : EmailQueueJob) (err : String) (now : Nat) : EmailQueueJob :=
  let a := j.attempts + 1
  if j.max_attempts ≤ a then
    { j with attempts := a, error_message := some err, status := .failed }
  else
    { j with attempts := a, error_message := some err, status := .retrying,
             scheduled_at := now + 60 * (5 * a) }

/-- The ordering `order_by('priority', 'scheduled_at')` of the queue
    queries: by priority ascending, ties by scheduled time ascending. -/
def jobLe (a b : EmailQueueJob) : Prop :=
  a.priority < b.priority ∨ (a.priority = b.priority ∧ a.scheduled_at ≤ b.scheduled_at)

instance : DecidableRel jobLe := fun a b => by
  unfold jobLe; infer_instance

instance : IsTotal EmailQueueJob jobLe where
  total a b := by unfold jobLe; omega

instance : IsTrans EmailQueueJob jobLe where
  trans a b c hab hbc := by unfold jobLe at *; omega

/-- The pending-email query of `EmailService._process_campaign_queue`
    (email_service.py lines 347-351): jobs of the campaign with status
    PENDING and scheduled time not after now, ordered by (priority,
    scheduled_at), limited to 10. -/
def pending_selection (jobs : List EmailQueueJob) (campaignId now : Nat) :
    List EmailQueueJob :=
  ((jobs.filter fun j =>
      decide (j.campaign_id = campaignId ∧ j.status = .pending ∧ j.scheduled_at ≤ now)
    ).insertionSort jobLe).take 10

/-- The completion test of `EmailService._process_campaign_queue`
    (email_service.py lines 353-360): the pending query is empty and no job
    of the campaign is PENDING or RETRYING (SENDING jobs are not checked). -/
def email_service_completion_check (jobs : List EmailQueueJob) (campaignId now : Nat) : Bool :=
  (pending_selection jobs campaignId now).isEmpty &&
    !(jobs.any fun j =>
        decide (j.campaign_id = campaignId ∧ (j.status = .pending ∨ j.status = .retrying)))

/-- The completion branch of `EmailService._process_campaign_queue`: call
    `complete_sending` exactly when the completion test passes. -/
def process_queue_completion_step (jobs : List EmailQueueJob) (camp : EmailCampaign)
    (now : Nat) : EmailCampaign :=
  if email_service_completion_check jobs camp.id now then complete_sending camp now
  else camp

/-- The completion test of the Celery task `process_campaign_queue`
    (tasks.py lines 97-110): the pending query is empty and no job of the
    campaign is PENDING, RETRYING or SENDING. -/
def tasks_completion_check (jobs : List EmailQueueJob) (campaignId now : Nat) : Bool :=
  (jobs.filter fun j =>
      decide (j.campaign_id = campaignId ∧ j.status = .pending ∧ j.scheduled_at ≤ now)
    ).isEmpty &&
    !(jobs.any fun j =>
        decide (j.campaign_id = campaignId ∧
          (j.status = .pending ∨ j.status = .retrying ∨ j.status = .sending)))

/-- The observable outcome of `EmailService.send_email` (email_service.py
    lines 74-139) for a queued campaign send: a configuration failing the
    rate-limit gate returns False untried; otherwise the result is the
    transport outcome, and on success the configuration usage is recorded. -/
def send_email_model (cfg : Option EmailDomainConfig) (transport_ok : Bool) (now : Nat) :
    Bool × Option EmailDomainConfig :=
  match cfg with
  | some c =>
    if !(can_send_email c) then (false, some c)
    else if transport_ok then (true, some (increment_usage c now))
    else (false, some c)
  | none => (transport_ok, none)

/-- The outcome handling of `EmailService._send_queued_email`
    (email_service.py lines 371-400): on success mark the job sent and bump
    the campaign sent counter; on failure mark the job failed and bump the
    campaign failed counter.  (The contact's own sent counter, also bumped on
    success, is outside the modelled state.) -/
def send_queued_email_step (j : EmailQueueJob) (camp : EmailCampaign)
    (result : Bool) (now : Nat) : EmailQueueJob × EmailCampaign :=
  if result then (mark_sent j now, increment_sent camp)
  else (mark_failed j "Failed to send email" now, increment_failed camp)

/-- The full path of `EmailService._send_queued_email` for a job whose
    campaign has an email configuration: the gate and transport via
    `send_email`, then the outcome handling. -/
def send_queued_via_service (j : EmailQueueJob) (camp : EmailCampaign)
    (cfg : EmailDomainConfig) (transport_ok : Bool) (now : Nat) :
    EmailQueueJob × EmailCampaign × EmailDomainConfig :=
  let r := send_email_model (some cfg) transport_ok now
  let out := send_queued_email_step j camp r.1 now
  (out.1, out.2, r.2.getD cfg)

/-- Eligibility filter of `EmailService.send_bulk_campaign` (email_service.py
    lines 278-284): active contacts with status ACTIVE. -/
def eligibleContact (c : Contact) : Bool :=
  c.is_active && c.status == "ACTIVE"

/-- The contact collection loop of `EmailService.send_bulk_campaign`
    (email_service.py lines 277-285): for each source list in turn, keep the
    eligible contacts whose exact email string has not been collected from an
    earlier list, and add them to the collection. -/
def resolve_recipients (lists : List (List Contact)) : List Contact :=
  lists.foldl
    (fun acc l =>
      acc ++ l.filter (fun c =>
        eligibleContact c && decide (c.email ∉ acc.map (fun x => x.email))))
    []

/-- The queue row created by `EmailService._queue_campaign_email`
    (email_service.py lines 313-337), with the default queue fields of
    `EmailQueue` (status PENDING, priority 0, attempts 0, max 3,
    `scheduled_at` defaulting to now).  `nowTs` is the wall-clock string that
    feeds the open-tracking token. -/
def queue_campaign_email (camp : EmailCampaign) (c : Contact) (now : Nat)
    (nowTs : String) : EmailQueueJob :=
  let subj := personalize_content camp.subject c
  let html := personalize_content camp.html_content c
  let text := camp.text_content.map (fun t => personalize_content t c)
  let html := if camp.track_opens then add_tracking_pixel html camp.id c.id nowTs else html
  let html := if camp.track_clicks then add_click_tracking html camp.id c.id else html
  { campaign_id := camp.id
    contact_id := c.id
    status := .pending
    priority := 0
    personalized_subject := subj
    personalized_html_content := html
    personalized_text_content := text
    attempts := 0
    max_attempts := 3
    error_message := none
    scheduled_at := now
    sent_at := none }

/-- The queue-visible state of one campaign: its row, its queue rows, and its
    source contact lists. -/
structure EngineState where
  campaign : EmailCampaign
  jobs : List EmailQueueJob
  lists : List (List Contact)
deriving Repr

/-- Model of `EmailService.send_bulk_campaign` (email_service.py lines
    273-311): resolve the recipients, store the recipient count, append one
    freshly personalized queue row per recipient, and mark the campaign
    SENDING.  (The background processing thread it spawns is modelled
    separately.) -/
def send_bulk_campaign (st : EngineState) (now : Nat) (nowTs : String) : EngineState :=
  let contacts := resolve_recipients st.lists
  let camp := { st.campaign with recipient_count := contacts.length }
  let newJobs := contacts.map (fun c => queue_campaign_email camp c now nowTs)
  { st with campaign := start_sending camp now, jobs := st.jobs ++ newJobs }

/-- Model of `CampaignService.resume_campaign` (campaign_service.py lines
    119-135): a PAUSED campaign is set back to SENDING and then
    `send_bulk_campaign` is invoked again; any other status is untouched. -/
def resume_campaign (st : EngineState) (now : Nat) (nowTs : String) : EngineState :=
  if st.campaign.status = .paused then
    send_bulk_campaign
      { st with campaign := { st.campaign with status := .sending } } now nowTs
  else st

/-- Stages of one worker executing the claim path of the Celery task
    `send_queued_email` (tasks.py lines 22-60): `ready` before the status
    check (line 27), `claimed` after reading PENDING, `marked` after the
    separate save of SENDING (lines 32-33), `processed` after performing the
    send, `skipped` when the check read a non-PENDING status. -/
inductive WStage where
  | ready
  | claimed
  | marked
  | processed
  | skipped
deriving DecidableEq, Repr

/-- Shared job status plus the local stages of two workers running
    `send_queued_email` on the same queue row. -/
structure ClaimState where
  job_status : QStatus
  w0 : WStage
  w1 : WStage
deriving DecidableEq, Repr

/-- One datastore operation of worker `i` (`false` is worker 0): the
    read-and-check of the status, the save of SENDING, and the send are three
    separate steps, exactly as in tasks.py lines 27-50. -/
def workerStep (s : ClaimState) (i : Bool) : ClaimState :=
  match (if i then s.w1 else s.w0) with
  | .ready =>
    let st := if s.job_status = .pending then WStage.claimed else WStage.skipped
    if i then { s with w1 := st } else { s with w0 := st }
  | .claimed =>
    if i then { s with job_status := .sending, w1 := .marked }
    else { s with job_status := .sending, w0 := .marked }
  | .marked =>
    if i then { s with w1 := .processed } else { s with w0 := .processed }
  | _ => s

/-- Runs a schedule (a list of worker choices) from a claim state. -/
def runSchedule (sched : List Bool) (s : ClaimState) : ClaimState :=
  sched.foldl workerStep s

/-- The initial state: the queue row is PENDING and neither worker has
    started. -/
def initClaimState : ClaimState :=
  { job_status := .pending, w0 := .ready, w1 := .ready }

/-- The serial schedule: one worker runs its three steps to completion before
    the other starts. -/
def serialSchedule (first : Bool) : List Bool :=
  [first, first, first, !first, !first, !first]

/-- A verified, active configuration with a daily limit of 2 and fresh
    counters; used to instantiate the rate-limiter theorems. -/
def demoCfg : EmailDomainConfig :=
  { is_active := true, domain_verified := true, daily_send_limit := 2,
    monthly_send_limit := 10, emails_sent_today := 0, emails_sent_this_month := 0,
    last_used_at := none }

/-- A verified, active configuration whose daily counter has reached its
    limit, so the gate denies it. -/
def exhaustedCfg : EmailDomainConfig :=
  { is_active := true, domain_verified := true, daily_send_limit := 1,
    monthly_send_limit := 10, emails_sent_today := 1, emails_sent_this_month := 1,
    last_used_at := none }

/-- A freshly queued PENDING job of campaign 0. -/
def pendJob : EmailQueueJob :=
  { campaign_id := 0, contact_id := 1, status := .pending, priority := 0,
    personalized_subject := "s", personalized_html_content := "h",
    personalized_text_content := none, attempts := 0, max_attempts := 3,
    error_message := none, scheduled_at := 0, sent_at := none }

/-- A job of campaign 0 in RETRYING state whose retry time has passed. -/
def retryJob : EmailQueueJob :=
  { pendJob with status := .retrying, attempts := 1 }

/-- A job of campaign 0 currently in SENDING state. -/
def sendingJob : EmailQueueJob :=
  { pendJob with status := .sending }

/-- A terminally SENT job of campaign 0. -/
def sentJob : EmailQueueJob :=
  { pendJob with status := .sent, sent_at := some 0 }

/-- A campaign (id 0) in SENDING state with tracking disabled and fresh
    counters. -/
def demoCampaign : EmailCampaign :=
  { id := 0, subject := "s", html_content := "h", text_content := none,
    track_opens := false, track_clicks := false, status := .sending,
    recipient_count := 1, emails_sent := 0, emails_delivered := 0,
    emails_failed := 0, started_at := none, completed_at := none }

/-- An active, subscription-eligible contact (id 5). -/
def contact5 : Contact :=
  { id := 5, email := "k@x.com", first_name := "K", last_name := "L",
    company := "", city := "", country := "", custom_fields := [],
    is_active := true, status := "ACTIVE" }

/-- A PENDING job of campaign 0 for contact 5. -/
def job5 : EmailQueueJob :=
  { pendJob with contact_id := 5 }

/-- The campaign of `demoCampaign` paused mid-send. -/
def pausedCampaign : EmailCampaign :=
  { demoCampaign with status := .paused }

/-- The queue state of a paused campaign: contact 5 already has a PENDING
    job, and the source lists still contain contact 5. -/
def pausedState : EngineState :=
  { campaign := pausedCampaign, jobs := [job5], lists := [[contact5]] }

/-- An eligible contact whose email has an uppercase local part. -/
def contactUpper : Contact :=
  { contact5 with id := 7, email := "A@x.com" }

/-- An eligible contact with the same email as `contactUpper` up to letter
    case. -/
def contactLower : Contact :=
  { contact5 with id := 8, email := "a@x.com" }

/-- Two source lists that share one recipient email up to letter case. -/
def caseLists : List (List Contact) :=
  [[contactUpper], [contactLower]]

/-- The campaign of `demoCampaign` with open tracking enabled. -/
def pixelCampaign : EmailCampaign :=
  { demoCampaign with track_opens := true, html_content := "<p>hi</p>" }

theorem decVal_encChar : ∀ n < 64, decVal b64chars (encChar b64chars n) = some n := by
  decide

theorem encChar_ne_pad : ∀ n < 64, encChar b64chars n ≠ '=' := by decide

theorem b64_roundtrip (bs : List Nat) (hb : ∀ b ∈ bs, b < 256) :
    b64decodeWith b64chars (b64encodeWith b64chars bs) = some bs := by
  induction bs using b64encodeWith.induct b64chars with
  | case1 => simp [b64encodeWith, b64decodeWith]
  | case2 b0 =>
    have h0 : b0 < 256 := hb b0 (by simp)
    have e0 := decVal_encChar (b0 / 4) (by omega)
    have e1 := decVal_encChar (b0 % 4 * 16) (by omega)
    rw [b64encodeWith, b64decodeWith]
    simp only [e0, e1, and_self, if_true, if_pos rfl]
    simp only [Option.some.injEq, List.cons.injEq, and_true]
    omega
  | case3 b0 b1 =>
    have h0 : b0 < 256 := hb b0 (by simp)
    have h1 : b1 < 256 := hb b1 (by simp)
    have e0 := decVal_encChar (b0 / 4) (by omega)
    have e1 := decVal_encChar (b0 % 4 * 16 + b1 / 16) (by omega)
    have e2 := decVal_encChar (b1 % 16 * 4) (by omega)
    have ne2 : encChar b64chars (b1 % 16 * 4) ≠ '=' := encChar_ne_pad _ (by omega)
    rw [b64encodeWith, b64decodeWith]
    simp only [e0, e1, e2, ne2, if_false, ite_false, if_pos rfl, if_true,
      Option.some.injEq, List.cons.injEq, and_true]
    omega
  | case4 b0 b1 b2 rest ih =>
    have h0 : b0 < 256 := hb b0 (by simp)
    have h1 : b1 < 256 := hb b1 (by simp)
    have h2 : b2 < 256 := hb b2 (by simp)
    have hrest : ∀ b ∈ rest, b < 256 := fun b hbmem => hb b (by simp [hbmem])
    have e0 := decVal_encChar (b0 / 4) (by omega)
    have e1 := decVal_encChar (b0 % 4 * 16 + b1 / 16) (by omega)
    have e2 := decVal_encChar (b1 % 16 * 4 + b2 / 64) (by omega)
    have e3 := decVal_encChar (b2 % 64) (by omega)
    have ne2 : encChar b64chars (b1 % 16 * 4 + b2 / 64) ≠ '=' := encChar_ne_pad _ (by omega)
    have ne3 : encChar b64chars (b2 % 64) ≠ '=' := encChar_ne_pad _ (by omega)
    rw [b64encodeWith, b64decodeWith]
    simp only [e0, e1, e2, e3, ne2, ne3, if_false, ite_false, ih hrest, Option.map_some',
      Option.some.injEq, List.cons.injEq, eq_self_iff_true, and_true, true_and]
    omega

/-- C10: for every UTF-8-encodable password (represented here by its UTF-8
    byte sequence, each byte below 256), `_decrypt_password` inverts
    `_encrypt_password` exactly, so the credentials a transport receives
    equal the credentials the user stored. -/
theorem encrypt_decrypt_roundtrip (pw : List Nat) (hb : ∀ b ∈ pw, b < 256) :
    decrypt_password (encrypt_password pw) = some pw := by
  unfold decrypt_password encrypt_password
  exact b64_roundtrip pw hb

/-- Witness for C10 at the byte sequence of the password "abc". -/
theorem encrypt_decrypt_roundtrip_witness :
    decrypt_password (encrypt_password [97, 98, 99]) = some [97, 98, 99] :=
  encrypt_decrypt_roundtrip [97, 98, 99] (by decide)

theorem increment_usage_iterate (now n : Nat) (cfg : EmailDomainConfig) :
    ((fun c => increment_usage c now)^[n] cfg).emails_sent_today
        = cfg.emails_sent_today + n ∧
    ((fun c => increment_usage c now)^[n] cfg).daily_send_limit
        = cfg.daily_send_limit := by
  induction n generalizing cfg with
  | zero => simp
  | succ k ih =>
    rw [Function.iterate_succ_apply]
    have h := ih (increment_usage cfg now)
    have e1 : (increment_usage cfg now).emails_sent_today = cfg.emails_sent_today + 1 := rfl
    have e2 : (increment_usage cfg now).daily_send_limit = cfg.daily_send_limit := rfl
    omega

/-- C9: `can_send_email` is true exactly when the configuration is active,
    its domain is verified, and both usage counters are strictly below their
    limits; and after `daily_send_limit` sends recorded through
    `increment_usage` from a fresh daily counter, `can_send_email` is
    false. -/
theorem rate_limit_gate :
    (∀ cfg : EmailDomainConfig,
      can_send_email cfg = true ↔
        (cfg.is_active = true ∧ cfg.domain_verified = true ∧
         cfg.emails_sent_today < cfg.daily_send_limit ∧
         cfg.emails_sent_this_month < cfg.monthly_send_limit)) ∧
    (∀ (cfg : EmailDomainConfig) (now : Nat), cfg.emails_sent_today = 0 →
      can_send_email ((fun c => increment_usage c now)^[cfg.daily_send_limit] cfg)
        = false) := by
  constructor
  · intro cfg
    cases hA : cfg.is_active <;> cases hV : cfg.domain_verified <;>
      simp only [can_send_email, hA, hV, Bool.not_true, Bool.not_false,
        Bool.false_or, Bool.true_or, Bool.or_self, Bool.or_false, Bool.false_and,
        if_true, if_false, ite_false, ite_true] <;>
      simp
  · intro cfg now h0
    have hit := increment_usage_iterate now cfg.daily_send_limit cfg
    unfold can_send_email
    split_ifs with h1 h2 h3
    · rfl
    · rfl
    · rfl
    · exfalso
      omega

/-- Witness for C9: `demoCfg` starts at 0 of 2 daily sends, and after 2
    recorded sends the gate denies it. -/
theorem rate_limit_gate_witness :
    can_send_email ((fun c => increment_usage c 0)^[demoCfg.daily_send_limit] demoCfg)
      = false :=
  rate_limit_gate.2 demoCfg 0 rfl

/-- Counterexample for C1: the status check (tasks.py line 27) and the save
    of SENDING (lines 32-33) are separate datastore operations, so under the
    interleaving in which both workers pass the check before either saves,
    both workers process the same queue row: the exclusivity stated by the
    claim is false. -/
theorem exclusive_claim_counterexample :
    (runSchedule [false, true, false, true, false, true] initClaimState).w0
        = WStage.processed ∧
    (runSchedule [false, true, false, true, false, true] initClaimState).w1
        = WStage.processed := by
  decide

/-- C1 (amended): the claim path is a read-check followed by a separate
    save, not one atomic conditional update; exclusivity holds only when the
    two steps of one worker run without interleaving.  Concretely: under
    either serial schedule the late worker reads SENDING and skips, so
    exactly one worker processes the job. -/
theorem exclusive_claim_amended :
    runSchedule (serialSchedule false) initClaimState
        = { job_status := .sending, w0 := .processed, w1 := .skipped } ∧
    runSchedule (serialSchedule true) initClaimState
        = { job_status := .sending, w0 := .skipped, w1 := .processed } := by
  decide

/-- Counterexample for C2: a RETRYING job whose retry time has passed is
    never selected by the pending query (the query filters on PENDING only),
    and a selected PENDING job is returned still in PENDING state (no
    transition to SENDING happens at claim time). -/
theorem claim_batch_counterexample :
    pending_selection [retryJob] 0 1000 = [] ∧
    pending_selection [pendJob] 0 1000 = [pendJob] ∧
    pendJob.status = QStatus.pending := by
  decide

/-- C2 (amended): the batch query selects up to 10 jobs of the campaign with
    status PENDING (RETRYING jobs are excluded until an external path resets
    them) and scheduled time not after now, ordered by (priority,
    scheduled_at); selection does not change any job's status. -/
theorem claim_batch_amended (jobs : List EmailQueueJob) (cid now : Nat)
    (j : EmailQueueJob) (hj : j ∈ pending_selection jobs cid now) :
    (pending_selection jobs cid now).length ≤ 10 ∧
    j.campaign_id = cid ∧ j.status = QStatus.pending ∧ j.scheduled_at ≤ now ∧
    j ∈ jobs ∧ List.Sorted jobLe (pending_selection jobs cid now) := by
  unfold pending_selection at hj ⊢
  have h1 : j ∈ (jobs.filter fun j =>
      decide (j.campaign_id = cid ∧ j.status = .pending ∧ j.scheduled_at ≤ now)
    ).insertionSort jobLe := List.take_subset 10 _ hj
  have hfil := (List.perm_insertionSort jobLe _).subset h1
  have hp := List.mem_filter.mp hfil
  have hprops := of_decide_eq_true hp.2
  refine ⟨?_, hprops.1, hprops.2.1, hprops.2.2, hp.1, ?_⟩
  · simp only [List.length_take]
    omega
  · exact List.Pairwise.sublist (List.take_sublist 10 _)
      (List.sorted_insertionSort jobLe _)

/-- Witness for C2 at a one-job queue. -/
theorem claim_batch_amended_witness :
    (pending_selection [pendJob] 0 100).length ≤ 10 ∧
    pendJob.campaign_id = 0 ∧ pendJob.status = QStatus.pending ∧
    pendJob.scheduled_at ≤ 100 ∧ pendJob ∈ [pendJob] ∧
    List.Sorted jobLe (pending_selection [pendJob] 0 100) :=
  claim_batch_amended [pendJob] 0 100 pendJob (by decide)

/-- Counterexample for C3: a first failure (attempts 0 of 3) leaves the job
    RETRYING, yet `_send_queued_email` still increments the campaign's failed
    counter — contradicting the claim that the counter moves only on
    terminal failure. -/
theorem retry_policy_counterexample :
    (send_queued_email_step pendJob demoCampaign false 0).1.status
        = QStatus.retrying ∧
    (send_queued_email_step pendJob demoCampaign false 0).2.emails_failed
        = demoCampaign.emails_failed + 1 := by
  decide

/-- C3 (amended): on failure the attempt count increments by one; below the
    maximum the job becomes RETRYING with retry time now + 5 minutes times
    the new attempt count, at the maximum it becomes terminally FAILED; but
    the campaign's failed counter increments on every failed attempt in
    `_send_queued_email`, not only on terminal failure. -/
theorem retry_policy_amended (j : EmailQueueJob) (camp : EmailCampaign)
    (err : String) (now : Nat) :
    (mark_failed j err now).attempts = j.attempts + 1 ∧
    (j.attempts + 1 < j.max_attempts →
      (mark_failed j err now).status = QStatus.retrying ∧
      (mark_failed j err now).scheduled_at = now + 60 * (5 * (j.attempts + 1))) ∧
    (j.max_attempts ≤ j.attempts + 1 →
      (mark_failed j err now).status = QStatus.failed) ∧
    (send_queued_email_step j camp false now).2.emails_failed
        = camp.emails_failed + 1 := by
  by_cases h : j.max_attempts ≤ j.attempts + 1
  · refine ⟨by simp [mark_failed, h], fun hlt => absurd h (by omega),
      fun _ => by simp [mark_failed, h], rfl⟩
  · refine ⟨by simp [mark_failed, h], fun _ => ⟨by simp [mark_failed, h],
      by simp [mark_failed, h]⟩, fun hge => absurd hge h, rfl⟩

/-- Witness for C3: the first failure of a fresh job schedules a retry 5
    minutes later. -/
theorem retry_policy_amended_witness :
    (mark_failed pendJob "e" 7).status = QStatus.retrying ∧
    (mark_failed pendJob "e" 7).scheduled_at = 7 + 60 * (5 * (pendJob.attempts + 1)) :=
  (retry_policy_amended pendJob demoCampaign "e" 7).2.1 (by decide)

/-- Counterexample for C4: a job whose configuration is denied by the gate
    is not returned to PENDING — it is charged an attempt, marked RETRYING
    with an error recorded, and the campaign's failed counter increments. -/
theorem rate_limited_job_counterexample :
    (send_queued_via_service pendJob demoCampaign exhaustedCfg true 0).1.status
        = QStatus.retrying ∧
    (send_queued_via_service pendJob demoCampaign exhaustedCfg true 0).1.attempts = 1 ∧
    (send_queued_via_service pendJob demoCampaign exhaustedCfg true 0).2.1.emails_failed
        = demoCampaign.emails_failed + 1 := by
  decide

/-- C4 (amended): when `can_send_email` denies the configuration,
    `send_email` returns False and `_send_queued_email` treats that as a send
    failure: the job is charged an attempt and leaves PENDING (RETRYING or
    FAILED), the error is recorded, the campaign's failed counter increments,
    and the configuration's usage is unchanged. -/
theorem rate_limited_job_amended (j : EmailQueueJob) (camp : EmailCampaign)
    (cfg : EmailDomainConfig) (t : Bool) (now : Nat)
    (hdeny : can_send_email cfg = false) :
    (send_queued_via_service j camp cfg t now).1.attempts = j.attempts + 1 ∧
    (send_queued_via_service j camp cfg t now).1.status ≠ QStatus.pending ∧
    (send_queued_via_service j camp cfg t now).1.error_message
        = some "Failed to send email" ∧
    (send_queued_via_service j camp cfg t now).2.1.emails_failed
        = camp.emails_failed + 1 ∧
    (send_queued_via_service j camp cfg t now).2.2 = cfg := by
  by_cases h : j.max_attempts ≤ j.attempts + 1 <;>
    simp [send_queued_via_service, send_email_model, hdeny,
      send_queued_email_step, mark_failed, increment_failed, h]

/-- Witness for C4 at the exhausted configuration. -/
theorem rate_limited_job_amended_witness :
    (send_queued_via_service pendJob demoCampaign exhaustedCfg false 3).1.attempts
        = pendJob.attempts + 1 ∧
    (send_queued_via_service pendJob demoCampaign exhaustedCfg false 3).1.status
        ≠ QStatus.pending ∧
    (send_queued_via_service pendJob demoCampaign exhaustedCfg false 3).1.error_message
        = some "Failed to send email" ∧
    (send_queued_via_service pendJob demoCampaign exhaustedCfg false 3).2.1.emails_failed
        = demoCampaign.emails_failed + 1 ∧
    (send_queued_via_service pendJob demoCampaign exhaustedCfg false 3).2.2
        = exhaustedCfg :=
  rate_limited_job_amended pendJob demoCampaign exhaustedCfg false 3 (by decide)

theorem pending_selection_isEmpty (jobs : List EmailQueueJob) (cid now : Nat) :
    (pending_selection jobs cid now).isEmpty = true ↔
      jobs.filter (fun j =>
        decide (j.campaign_id = cid ∧ j.status = QStatus.pending ∧ j.scheduled_at ≤ now))
        = [] := by
  unfold pending_selection
  rw [List.isEmpty_iff]
  constructor
  · intro h
    have hlen := congrArg List.length h
    simp only [List.length_take, List.length_insertionSort, List.length_nil] at hlen
    have hz : (jobs.filter (fun j =>
        decide (j.campaign_id = cid ∧ j.status = QStatus.pending ∧ j.scheduled_at ≤ now))
      ).length = 0 := by omega
    exact List.length_eq_zero.mp hz
  · intro h
    rw [h]
    rfl

/-- Counterexample for C5: the threaded queue processor's completion test
    ignores SENDING jobs, so a campaign whose only outstanding job is in
    SENDING state is marked completed (SENT) while that job is still in
    flight. -/
theorem completion_counterexample :
    (process_queue_completion_step [sendingJob] demoCampaign 0).status
        = CStatus.cSent ∧
    sendingJob.status = QStatus.sending := by
  decide

/-- C5 (amended): the Celery task's completion test passes exactly when no
    job of the campaign is PENDING, RETRYING or SENDING; the threaded
    processor's test passes exactly when no job is PENDING or RETRYING —
    SENDING jobs do not block completion on that path. -/
theorem completion_checks_amended (jobs : List EmailQueueJob) (cid now : Nat) :
    (tasks_completion_check jobs cid now = true ↔
      ∀ j ∈ jobs, j.campaign_id = cid →
        j.status ≠ QStatus.pending ∧ j.status ≠ QStatus.retrying ∧
        j.status ≠ QStatus.sending) ∧
    (email_service_completion_check jobs cid now = true ↔
      ∀ j ∈ jobs, j.campaign_id = cid →
        j.status ≠ QStatus.pending ∧ j.status ≠ QStatus.retrying) := by
  constructor
  · rw [tasks_completion_check, Bool.and_eq_true, List.isEmpty_iff,
      Bool.not_eq_true', List.any_eq_false, List.filter_eq_nil_iff]
    constructor
    · intro h j hj hc
      have h2 := h.2 j hj
      simp only [decide_eq_true_eq, not_and, not_or] at h2
      exact h2 hc
    · intro h
      constructor
      · intro j hj
        simp only [decide_eq_true_eq, not_and]
        intro hc hp
        exact absurd hp (h j hj hc).1
      · intro j hj
        simp only [decide_eq_true_eq, not_and, not_or]
        intro hc
        exact (h j hj hc)
  · rw [email_service_completion_check, Bool.and_eq_true, pending_selection_isEmpty,
      Bool.not_eq_true', List.any_eq_false, List.filter_eq_nil_iff]
    constructor
    · intro h j hj hc
      have h2 := h.2 j hj
      simp only [decide_eq_true_eq, not_and, not_or] at h2
      exact h2 hc
    · intro h
      constructor
      · intro j hj
        simp only [decide_eq_true_eq, not_and]
        intro hc hp
        exact absurd hp (h j hj hc).1
      · intro j hj
        simp only [decide_eq_true_eq, not_and, not_or]
        intro hc
        exact (h j hj hc)

/-- Witness for C5: a queue holding only a SENT job passes the Celery
    completion test. -/
theorem completion_checks_amended_witness :
    tasks_completion_check [sentJob] 0 0 = true :=
  (completion_checks_amended [sentJob] 0 0).1.mpr (by decide)

/-- Counterexample for C6: resuming a paused campaign whose single contact
    already has a PENDING queue row re-runs the whole bulk send, creating a
    second, freshly personalized PENDING row for the same
    (campaign, recipient) pair. -/
theorem resume_counterexample :
    (resume_campaign pausedState 0 "0").jobs.length = 2 ∧
    ((resume_campaign pausedState 0 "0").jobs.all fun jb =>
      decide (jb.campaign_id = 0 ∧ jb.contact_id = 5 ∧ jb.status = QStatus.pending))
      = true := by
  decide

/-- C6 (amended): resuming a PAUSED campaign re-runs `send_bulk_campaign`:
    every resolved recipient is re-personalized and enqueued again, so the
    queue grows by the full recipient count while all previous rows (and any
    non-terminal duplicates they now form) are retained. -/
theorem resume_campaign_amended (st : EngineState) (now : Nat) (ts : String)
    (h : st.campaign.status = CStatus.paused) :
    (resume_campaign st now ts).jobs.length
        = st.jobs.length + (resolve_recipients st.lists).length ∧
    (resume_campaign st now ts).campaign.status = CStatus.sending ∧
    ∀ jb ∈ st.jobs, jb ∈ (resume_campaign st now ts).jobs := by
  unfold resume_campaign
  rw [if_pos h]
  unfold send_bulk_campaign start_sending
  refine ⟨by simp, rfl, ?_⟩
  intro jb hjb
  simp only [List.mem_append]
  exact Or.inl hjb

/-- Witness for C6: the paused one-contact state doubles its queue on
    resume and keeps the old row. -/
theorem resume_campaign_amended_witness :
    (resume_campaign pausedState 0 "0").jobs.length
        = pausedState.jobs.length + (resolve_recipients pausedState.lists).length ∧
    job5 ∈ (resume_campaign pausedState 0 "0").jobs :=
  ⟨(resume_campaign_amended pausedState 0 "0" rfl).1,
   (resume_campaign_amended pausedState 0 "0" rfl).2.2 job5 (by decide)⟩

/-- Counterexample for C7: two eligible contacts whose emails differ only in
    letter case are both kept by the resolver — the dedup key is the exact
    email string, not the case-insensitive one the claim states. -/
theorem recipient_resolver_counterexample :
    resolve_recipients caseLists = [contactUpper, contactLower] ∧
    strLower contactUpper.email.data = strLower contactLower.email.data := by
  decide

theorem resolve_foldl_mem (lists : List (List Contact)) (acc : List Contact) :
    ∀ c ∈ lists.foldl
      (fun acc l =>
        acc ++ l.filter (fun c =>
          eligibleContact c && decide (c.email ∉ acc.map (fun x => x.email))))
      acc,
      c ∈ acc ∨ (eligibleContact c = true ∧ ∃ l ∈ lists, c ∈ l) := by
  induction lists generalizing acc with
  | nil => intro c hc; exact Or.inl hc
  | cons l ls ih =>
    intro c hc
    rw [List.foldl_cons] at hc
    rcases ih _ c hc with hmem | ⟨helig, l', hl', hcl'⟩
    · rcases List.mem_append.mp hmem with hacc | hfil
      · exact Or.inl hacc
      · have hp := List.mem_filter.mp hfil
        have helig : eligibleContact c = true := by
          have := hp.2
          simp only [Bool.and_eq_true] at this
          exact this.1
        exact Or.inr ⟨helig, l, List.mem_cons_self l ls, hp.1⟩
    · exact Or.inr ⟨helig, l', List.mem_cons_of_mem l hl', hcl'⟩

theorem resolve_foldl_pairwise (lists : List (List Contact)) (acc : List Contact)
    (hacc : acc.Pairwise (fun a b => a.email ≠ b.email))
    (hlists : ∀ l ∈ lists, l.Pairwise (fun a b => a.email ≠ b.email)) :
    (lists.foldl
      (fun acc l =>
        acc ++ l.filter (fun c =>
          eligibleContact c && decide (c.email ∉ acc.map (fun x => x.email))))
      acc).Pairwise (fun a b => a.email ≠ b.email) := by
  induction lists generalizing acc with
  | nil => exact hacc
  | cons l ls ih =>
    rw [List.foldl_cons]
    apply ih
    · apply List.pairwise_append.mpr
      refine ⟨hacc, List.Pairwise.filter _ (hlists l (List.mem_cons_self l ls)), ?_⟩
      intro a ha b hb
      have hp := List.mem_filter.mp hb
      have hnot : b.email ∉ acc.map (fun x => x.email) := by
        have := hp.2
        simp only [Bool.and_eq_true, decide_eq_true_eq] at this
        exact this.2
      intro heq
      exact hnot (heq ▸ List.mem_map_of_mem (fun x => x.email) ha)
    · intro l' hl'
      exact hlists l' (List.mem_cons_of_mem l hl')

/-- C7 (amended): the resolver keeps only active, status-ACTIVE contacts
    drawn from the source lists, and deduplicates by the exact
    (case-sensitive) email string across lists: when each source list is
    internally duplicate-free, the resolved recipients have pairwise
    distinct exact emails — but case-variant duplicates survive. -/
theorem recipient_resolver_amended (lists : List (List Contact))
    (hdist : ∀ l ∈ lists, l.Pairwise (fun a b => a.email ≠ b.email)) :
    (∀ c ∈ resolve_recipients lists,
      eligibleContact c = true ∧ ∃ l ∈ lists, c ∈ l) ∧
    (resolve_recipients lists).Pairwise (fun a b => a.email ≠ b.email) := by
  constructor
  · intro c hc
    rcases resolve_foldl_mem lists [] c hc with h | h
    · exact absurd h (List.not_mem_nil c)
    · exact h
  · exact resolve_foldl_pairwise lists [] List.Pairwise.nil hdist

/-- Witness for C7 at the two case-variant lists. -/
theorem recipient_resolver_amended_witness :
    (eligibleContact contactLower = true ∧ ∃ l ∈ caseLists, contactLower ∈ l) ∧
    (resolve_recipients caseLists).Pairwise (fun a b => a.email ≠ b.email) :=
  ⟨(recipient_resolver_amended caseLists (by decide)).1 contactLower (by decide),
   (recipient_resolver_amended caseLists (by decide)).2⟩

theorem replaceAllFuel_length_ge (pat rep : List Char) (hlen : pat.length ≤ rep.length) :
    ∀ (fuel : Nat) (s : List Char), s.length ≤ fuel →
      s.length ≤ (replaceAllFuel pat rep fuel s).length := by
  intro fuel
  induction fuel with
  | zero => intro s hs; simp [replaceAllFuel]
  | succ k ih =>
    intro s hs
    match s with
    | [] => simp [replaceAllFuel]
    | c :: rest =>
      rw [List.length_cons] at hs
      rw [replaceAllFuel]
      split_ifs with h
      · have hpos : 0 < pat.length := List.length_pos.mpr h.1
        have hpre : pat <+: (c :: rest) := List.isPrefixOf_iff_prefix.mp h.2
        have hple : pat.length ≤ rest.length + 1 := by
          have hl := hpre.length_le
          rw [List.length_cons] at hl
          exact hl
        have hd : ((c :: rest).drop pat.length).length = rest.length + 1 - pat.length := by
          rw [List.length_drop, List.length_cons]
        have hrec := ih ((c :: rest).drop pat.length) (by rw [hd]; omega)
        rw [hd] at hrec
        rw [List.length_append, List.length_cons]
        omega
      · have hrec := ih rest (by omega)
        rw [List.length_cons, List.length_cons]
        omega

theorem replaceAllFuel_length_gt (pat rep : List Char) (hne : pat ≠ [])
    (hlen : pat.length < rep.length) :
    ∀ (fuel : Nat) (s : List Char), s.length ≤ fuel → containsSub s pat = true →
      s.length < (replaceAllFuel pat rep fuel s).length := by
  intro fuel
  induction fuel with
  | zero =>
    intro s hs hc
    have hnil : s = [] := List.length_eq_zero.mp (Nat.le_zero.mp hs)
    subst hnil
    have : pat = [] := by simpa [containsSub] using hc
    exact absurd this hne
  | succ k ih =>
    intro s hs hc
    match s with
    | [] =>
      have : pat = [] := by simpa [containsSub] using hc
      exact absurd this hne
    | c :: rest =>
      rw [List.length_cons] at hs
      rw [replaceAllFuel]
      split_ifs with h
      · have hpos : 0 < pat.length := List.length_pos.mpr hne
        have hpre : pat <+: (c :: rest) := List.isPrefixOf_iff_prefix.mp h.2
        have hple : pat.length ≤ rest.length + 1 := by
          have hl := hpre.length_le
          rw [List.length_cons] at hl
          exact hl
        have hd : ((c :: rest).drop pat.length).length = rest.length + 1 - pat.length := by
          rw [List.length_drop, List.length_cons]
        have hrec := replaceAllFuel_length_ge pat rep (by omega) k
          ((c :: rest).drop pat.length) (by rw [hd]; omega)
        rw [hd] at hrec
        rw [List.length_append, List.length_cons]
        omega
      · have hnp : List.isPrefixOf pat (c :: rest) = false := by
          cases hq : List.isPrefixOf pat (c :: rest)
          · rfl
          · exact absurd ⟨hne, hq⟩ h
        have hc2 : (List.isPrefixOf pat (c :: rest) || containsSub rest pat) = true := hc
        rw [hnp, Bool.false_or] at hc2
        have hrec := ih rest (by omega) hc2
        rw [List.length_cons, List.length_cons]
        omega

theorem tracking_pixel_length_pos (cid ctid : Nat) (ts : String) :
    0 < (tracking_pixel cid ctid ts).data.length := by
  unfold tracking_pixel
  simp only [String.data_append, List.length_append, List.length_cons, List.length_nil]
  omega

theorem add_tracking_pixel_length_lt (html : String) (cid ctid : Nat) (ts : String) :
    html.data.length < (add_tracking_pixel html cid ctid ts).data.length := by
  unfold add_tracking_pixel
  have h0 := tracking_pixel_length_pos cid ctid ts
  by_cases hc : containsSubstr html "</body>" = true
  · rw [if_pos hc]
    show html.data.length <
      (replaceAllFuel (("</body>" : String).data)
        ((tracking_pixel cid ctid ts ++ "</body>").data)
        html.data.length html.data).length
    apply replaceAllFuel_length_gt
    · decide
    · simp only [String.data_append, List.length_append]
      omega
    · exact Nat.le_refl _
    · exact hc
  · rw [if_neg hc]
    simp only [String.data_append, List.length_append]
    omega

/-- Counterexample for C8: the full personalization step stores the
    generation timestamp inside the open-tracking token, so two runs of the
    step for the same (template, recipient) pair at different instants
    produce different HTML bytes — the step is neither pure in time nor
    idempotent. -/
theorem personalization_counterexample :
    (queue_campaign_email pixelCampaign contact5 0 "1").personalized_html_content
      ≠ (queue_campaign_email pixelCampaign contact5 0 "2").personalized_html_content := by
  decide

/-- C8 (amended): open-beacon injection strictly lengthens the HTML, so
    applying it twice never reproduces the once-injected output (the full
    step with open tracking on is not idempotent); with open tracking off
    the step is a pure function of (template, recipient) — its output does
    not depend on the generation instant. -/
theorem personalization_amended :
    (∀ (cid ctid : Nat) (ts html : String),
      add_tracking_pixel (add_tracking_pixel html cid ctid ts) cid ctid ts
        ≠ add_tracking_pixel html cid ctid ts) ∧
    (∀ (camp : EmailCampaign) (c : Contact) (now : Nat) (ts1 ts2 : String),
      camp.track_opens = false →
      queue_campaign_email camp c now ts1 = queue_campaign_email camp c now ts2) := by
  constructor
  · intro cid ctid ts html heq
    have h1 := add_tracking_pixel_length_lt (add_tracking_pixel html cid ctid ts) cid ctid ts
    rw [heq] at h1
    exact Nat.lt_irrefl _ h1
  · intro camp c now ts1 ts2 h
    simp [queue_campaign_email, h]

/-- Witness for C8: with open tracking off, two generation instants yield
    identical queue rows. -/
theorem personalization_amended_witness :
    queue_campaign_email demoCampaign contact5 0 "1"
      = queue_campaign_email demoCampaign contact5 0 "2" :=
  personalization_amended.2 demoCampaign contact5 0 "1" "2" rfl

end Afrimail
